import Mathlib

/-!
Verification development for `eleventy-multisite` (src/lib.ts).

The program's own logic is embedded shallowly below.  External collaborators
(the `glob` expander, the `minimatch` matcher, the `.gitignore` filter and the
Eleventy generator object) are black boxes in the source; they appear here as
explicit function parameters, so every theorem quantifies over their behaviour.
Node's `path.join` and `path.relative` (used on separator-joined relative
paths) are modelled segment-wise, matching their documented semantics for the
relative paths this program feeds them.
-/

namespace Multisite

/-! ### Path model: segments, join, relative -/

/-- Split a character list at `/` separators (model of splitting a path
string into raw segments). -/
def splitSegsAux : List Char → List Char → List (List Char)
  | [], acc => [acc.reverse]
  | c :: rest, acc =>
    if c = '/' then acc.reverse :: splitSegsAux rest []
    else splitSegsAux rest (c :: acc)

/-- Raw non-empty segments of a path string (collapses duplicate, leading and
trailing separators). -/
def rawSegs (s : String) : List String :=
  ((splitSegsAux s.data []).map String.mk).filter (fun t => t ≠ "")

/-- One step of segment normalisation: drop `.`, let `..` cancel the segment
below it on the stack (keeping leading `..`s), push anything else.  The
accumulator is the reversed stack of segments seen so far. -/
def normStack (acc : List String) (seg : String) : List String :=
  if seg = "." then acc
  else if seg = ".." then
    match acc with
    | [] => [".."]
    | top :: rest => if top = ".." then seg :: acc else rest
  else seg :: acc

/-- Normalised segments of a raw segment list (resolves `.` and `..`). -/
def normSegs (segs : List String) : List String :=
  (segs.foldl normStack []).reverse

/-- Normalised segments of a path string. -/
def segsOf (s : String) : List String :=
  normSegs (rawSegs s)

/-- Join segments back into a path string with `/` separators. -/
def joinSegs : List String → String
  | [] => ""
  | s :: rest => rest.foldl (fun acc t => acc ++ "/" ++ t) s

/-- Does the string end with a path separator?  Models
`pattern.endsWith('/')` from src/lib.ts line 97. -/
def endsWithSlash (s : String) : Bool :=
  match s.data.getLast? with
  | some c => c == '/'
  | none => false

/-- Does the string start with the parent-escape marker?  Models
`p.startsWith('..')` from src/lib.ts lines 113-115. -/
def startsWithDotDot (s : String) : Bool :=
  ['.', '.'].isPrefixOf s.data

/-- Model of Node `path.join(a, b)` on relative paths: concatenate the
segments, normalise `.` and `..`, and keep `b`'s trailing separator. -/
def pjoin (a b : String) : String :=
  let s := joinSegs (normSegs (rawSegs a ++ rawSegs b))
  if endsWithSlash b && s ≠ "" then s ++ "/" else s

/-- Relative-path core of Node `path.relative`: drop the common prefix of the
two segment lists, then climb out of what remains of `f` and descend into what
remains of `t`. -/
def relSegs : List String → List String → List String
  | [], t => t
  | f, [] => f.map (fun _ => "..")
  | a :: f, b :: t =>
    if a = b then relSegs f t
    else ((a :: f).map (fun _ => "..")) ++ (b :: t)

/-- Model of Node `path.relative(f, t)` for relative paths (both are resolved
against the same working directory, whose segments cancel). -/
def relativeP (f t : String) : String :=
  joinSegs (relSegs (segsOf f) (segsOf t))

/-! ### Data model (src/lib.ts lines 9-66) -/

/-- `SiteConfig` (src/lib.ts lines 9-15): per-site override; every field
optional. -/
structure SiteConfig where
  outDir : Option String := none
  configPath : Option String := none
  pathPrefix : Option String := none
  templateFormats : Option (List String) := none
  ignoreGlobal : Option Bool := none
deriving DecidableEq, Repr

/-- `SiteSpec = string | [string, SiteConfig]` (src/lib.ts line 17), as the
tagged sum it denotes. -/
inductive SiteSpec where
  | plain (pattern : String)
  | withConfig (pattern : String) (cfg : SiteConfig)
deriving DecidableEq, Repr

/-- The glob component of a `SiteSpec`
(`typeof siteSpec === 'string' ? siteSpec : siteSpec[0]`, src/lib.ts
line 176). -/
def specGlob : SiteSpec → String
  | .plain p => p
  | .withConfig p _ => p

/-- The value `matchSiteConfig` returns for a matching `SiteSpec`: `undefined`
(here `none`) for a bare string, the pair's override for a pair (src/lib.ts
lines 178-183). -/
def specResult : SiteSpec → Option SiteConfig
  | .plain _ => none
  | .withConfig _ cfg => some cfg

/-- The `excludes?: string[] | string` field of `Config` (src/lib.ts
line 26). -/
inductive ExcludesSpec where
  | one (s : String)
  | many (ss : List String)
deriving DecidableEq, Repr

/-- `Config` (src/lib.ts lines 19-29). -/
structure Config where
  baseDir : String
  outDir : String
  sites : List SiteSpec
  pathPrefix : Option String := none
  templateFormats : Option (List String) := none
  excludes : Option ExcludesSpec := none
  includesDir : Option String := none
  layoutsDir : Option String := none
deriving DecidableEq, Repr

/-- `DEFAULT_CONFIG` (src/lib.ts lines 43-49). -/
def DEFAULT_CONFIG : Config :=
  { baseDir := "sites/"
    outDir := "_out/"
    sites := [SiteSpec.plain "*"]
    includesDir := some "_includes/"
    layoutsDir := some "_layouts/" }

/-- `RunOptions` (src/lib.ts lines 51-66).  `configPath` is declared
`string` in the interface, but `runEleventy` guards it with
`options.configPath !== undefined` (line 139), so its runtime value may be
absent; it is therefore modelled as optional.  `quite` is the source's own
spelling. -/
structure RunOptions where
  sourceDir : String
  outDir : String
  configPath : Option String := none
  pathPrefix : Option String := none
  templateFormats : Option (List String) := none
  port : Option Nat := none
  serve : Option Bool := none
  watch : Option Bool := none
  dryRun : Option Bool := none
  incremental : Option Bool := none
  quite : Option Bool := none
  ignoreGlobal : Option Bool := none
  globalConfigPath : Option String := none
deriving DecidableEq, Repr

/-! ### findSites (src/lib.ts lines 87-122) -/

/-- One optional-directory disjunct of the post-filter drop condition
(src/lib.ts lines 114-115): `config.includesDir && !relative(config.includesDir,
base).startsWith('..')` — the optional directory is truthy (present and
non-empty) and the candidate does not escape it. -/
def insideDirOpt : Option String → String → Bool
  | some d, base => (d != "") && !startsWithDotDot (relativeP d base)
  | none, _ => false

/-- The full drop condition (src/lib.ts lines 113-115), assembled from the
three disjuncts. -/
def dropBase (c : Config) (base : String) : Bool :=
  (!startsWithDotDot (relativeP c.outDir base)) ||
  insideDirOpt c.includesDir base ||
  insideDirOpt c.layoutsDir base

/-- The per-pattern body of `findSites` (src/lib.ts lines 96-120): ensure a
trailing separator, join with `baseDir`, expand through the glob oracle `g`
(which receives `config.excludes`, line 111), filter through the
`.gitignore`-derived filter `ig` (lines 88-91), drop bases failing the
post-filter, and return the survivors relative to `baseDir` (line 118). -/
def sitesForPattern (g : String → Option ExcludesSpec → List String)
    (ig : List String → List String) (c : Config) (pattern : String) :
    List String :=
  let pattern := if endsWithSlash pattern then pattern else pattern ++ "/"
  let pattern := pjoin c.baseDir pattern
  ((ig (g pattern c.excludes)).filter (fun base => !dropBase c base)).map
    (fun base => relativeP c.baseDir base)

/-- `findSites` on an already-coerced pattern list, accumulating results in
pattern order (src/lib.ts lines 95-121). -/
def findSitesOnList (g : String → Option ExcludesSpec → List String)
    (ig : List String → List String) (c : Config) (patterns : List String) :
    List String :=
  (patterns.map (sitesForPattern g ig c)).flatten

/-- The `patterns: string[] | string` argument of `findSites` (src/lib.ts
line 87). -/
inductive Patterns where
  | one (p : String)
  | many (ps : List String)
deriving DecidableEq, Repr

/-- `findSites(config, patterns)` (src/lib.ts lines 87-122): a lone string is
coerced to a one-element list (lines 92-94), then each pattern is expanded and
filtered.  `g` is the external `globSync` and `ig` the `.gitignore` filter
(identity when no `.gitignore` exists). -/
def findSites (g : String → Option ExcludesSpec → List String)
    (ig : List String → List String) (c : Config) : Patterns → List String
  | .one p => findSitesOnList g ig c [p]
  | .many ps => findSitesOnList g ig c ps

/-! ### matchSiteConfig (src/lib.ts lines 174-186) -/

/-- The loop of `matchSiteConfig` (src/lib.ts lines 175-185): walk the
`SiteSpec` list in order; on the first spec whose glob matches the site
(through the external matcher `mm`, applied as `minimatch(site, glob)`),
return `none` for a bare string ("string sitespec uses default config",
line 179-180) or the pair's override; falling off the end also yields
`none` (the implicit `undefined` return). -/
def matchSites (mm : String → String → Bool) (site : String) :
    List SiteSpec → Option SiteConfig
  | [] => none
  | spec :: rest =>
    if mm site (specGlob spec) then specResult spec
    else matchSites mm site rest

/-- `matchSiteConfig(config, site)` (src/lib.ts lines 174-186). -/
def matchSiteConfig (mm : String → String → Bool) (config : Config)
    (site : String) : Option SiteConfig :=
  matchSites mm site config.sites

/-- A sequence of `matchSiteConfig` calls, each recorded with its result;
used to state that a call's result does not depend on the calls around it. -/
def callResults (mm : String → String → Bool)
    (calls : List (Config × String)) : List (Option SiteConfig) :=
  calls.map (fun cs => matchSiteConfig mm cs.1 cs.2)

/-! ### logger (src/lib.ts lines 69-79) -/

/-- What a property access through the logger proxy produces: either a
wrapping function (for the four intercepted method names) or the target's
own property, forwarded. -/
inductive ProxyValue (α β : Type) where
  | wrapped (f : String → β)
  | forwarded (v : α)

/-- The `get` trap of the logger proxy (src/lib.ts lines 70-78): for `log`,
`forceLog`, `warn` and `error` return a function that calls the target's
method of the same name with `[multisite] ` prepended to the message; for
any other property return `target[prop]` unchanged.  `targetProp` models
plain property reads and `targetCall` models invoking a target method with a
message. -/
def loggerGet {α β : Type} (targetProp : String → α)
    (targetCall : String → String → β) (prop : String) : ProxyValue α β :=
  if prop ∈ ["log", "forceLog", "warn", "error"] then
    .wrapped (fun msg => targetCall prop ("[multisite] " ++ msg))
  else
    .forwarded (targetProp prop)

/-! ### runEleventy (src/lib.ts lines 130-165) -/

/-- The synchronous setup phase of `runEleventy` (src/lib.ts lines 131-141):
the constructor arguments handed to `new Eleventy(...)` and the setter values
applied before `init`.  `configPath` is
`options.ignoreGlobal ? options.configPath : options.globalConfigPath`
(line 133), with JavaScript truthiness on the optional boolean.
`appliedSiteConfigHook` records whether line 139-140 loads and applies the
site's own configuration module. -/
structure EleventyInvocation where
  sourceDir : String
  outDir : String
  quietMode : Option Bool
  configPath : Option String
  setPathPrefix : Option String
  setDryRun : Option Bool
  setIncremental : Option Bool
  setFormats : Option (List String)
  appliedSiteConfigHook : Bool
deriving DecidableEq, Repr

/-- Translation of src/lib.ts lines 131-141 into the invocation record. -/
def runEleventySetup (o : RunOptions) : EleventyInvocation :=
  { sourceDir := o.sourceDir
    outDir := o.outDir
    quietMode := o.quite
    configPath := if o.ignoreGlobal.getD false then o.configPath
                  else o.globalConfigPath
    setPathPrefix := o.pathPrefix
    setDryRun := o.dryRun
    setIncremental := o.incremental
    setFormats := o.templateFormats
    appliedSiteConfigHook :=
      !(o.ignoreGlobal.getD false) && o.configPath.isSome }

/-- The one externally visible action the post-`init` continuation performs
(src/lib.ts lines 144-160). -/
inductive RunAction where
  | serve (port : Option Nat)
  | forceLog (msg : String)
  | write
deriving DecidableEq, Repr

/-- The post-`init` continuation of `runEleventy` (src/lib.ts lines 144-160):
`watched` starts `true` and the `catch` handler flips it to `false` when the
generator's `watch()` rejects (`watchOk` is whether it resolved).  If `serve`
or `watch` was requested, the follow-up runs `eleventy.serve(options.port)`
when `options.serve` is truthy and `watched` still holds, and otherwise
force-logs the started-watching notice; with neither flag, `eleventy.write()`
runs. -/
def postInitAction (o : RunOptions) (watchOk : Bool) : RunAction :=
  if o.serve.getD false || o.watch.getD false then
    if o.serve.getD false && watchOk then
      RunAction.serve o.port
    else
      RunAction.forceLog ("Started watching site " ++ o.sourceDir)
  else
    RunAction.write

/-! ### Concrete instantiations of the external collaborators, used in
closed statements -/

/-- A concrete `minimatch` instantiation: all patterns involved are literal
(no glob metacharacters), where standard glob semantics is string equality. -/
def mmLit : String → String → Bool := fun site glob => site == glob

/-- A concrete glob oracle: under the default config the single default
pattern `*` expands (after normalisation and joining with `baseDir`) to
`sites/*/`, for which the filesystem holds the directories
`sites/_includes/` and `sites/blog/`. -/
def gDemo : String → Option ExcludesSpec → List String :=
  fun pat _ => if pat = "sites/*/" then ["sites/_includes/", "sites/blog/"]
               else []

/-- A glob oracle for a filesystem with no matches at all (also what `glob`
returns when `baseDir` does not exist). -/
def gEmpty : String → Option ExcludesSpec → List String := fun _ _ => []

/-- A config whose single `SiteSpec` is the bare string `"a"`. -/
def cfgBare : Config :=
  { baseDir := "sites/", outDir := "_out/", sites := [SiteSpec.plain "a"] }

/-- The override `{configPath: "docs.config.js"}` from the spec's example. -/
def cfgDocs : SiteConfig := { configPath := some "docs.config.js" }

/-- A config in which two `SiteSpec`s both match the site `"docs"`: first the
pair `["docs", {configPath: "docs.config.js"}]`, then the bare string
`"docs"`. -/
def cfgTwoMatches : Config :=
  { baseDir := "sites/", outDir := "_out/",
    sites := [SiteSpec.withConfig "docs" cfgDocs, SiteSpec.plain "docs"] }

/-- Run options for a site that has its own config file, does not ignore the
global config, and is given no global config path. -/
def oSiteOnly : RunOptions :=
  { sourceDir := "sites/blog", outDir := "_out/blog",
    configPath := some "sites/blog/eleventy.config.js",
    ignoreGlobal := some false, globalConfigPath := none }

/-- Run options for a site that ignores the global config. -/
def oIgnoresGlobal : RunOptions :=
  { sourceDir := "sites/docs", outDir := "_out/docs",
    configPath := some "sites/docs/eleventy.config.js",
    ignoreGlobal := some true,
    globalConfigPath := some "global.config.js" }

/-- Run options requesting `serve` on port 8080. -/
def oServe : RunOptions :=
  { sourceDir := "sites/blog", outDir := "_out/blog",
    serve := some true, port := some 8080 }

/-- Run options requesting neither `serve` nor `watch`. -/
def oOneShot : RunOptions :=
  { sourceDir := "sites/blog", outDir := "_out/blog" }

/-! ### Helper lemmas -/

/-- `matchSites` returns `none` when no spec's glob matches the site. -/
lemma matchSites_of_none_match (mm : String → String → Bool) (site : String)
    (l : List SiteSpec) (h : ∀ q ∈ l, mm site (specGlob q) = false) :
    matchSites mm site l = none := by
  induction l with
  | nil => rfl
  | cons spec rest ih =>
    have hs := h spec (List.mem_cons_self spec rest)
    have ih2 := ih fun q hq => h q (List.mem_cons_of_mem spec hq)
    simp [matchSites, hs, ih2]

/-- `matchSites` returns the first matching spec's result: when every spec in
`pre` fails to match and `spec` matches, the scan of `pre ++ spec :: post`
ends at `spec`. -/
lemma matchSites_first (mm : String → String → Bool) (site : String)
    (pre post : List SiteSpec) (spec : SiteSpec)
    (hpre : ∀ q ∈ pre, mm site (specGlob q) = false)
    (hmatch : mm site (specGlob spec) = true) :
    matchSites mm site (pre ++ spec :: post) = specResult spec := by
  induction pre with
  | nil => simp [matchSites, hmatch]
  | cons q qs ih =>
    have hq := hpre q (List.mem_cons_self q qs)
    have ih2 := ih fun x hx => hpre x (List.mem_cons_of_mem q hx)
    simp [matchSites, hq, ih2]

/-- Appending a separator makes `endsWithSlash` true. -/
lemma endsWithSlash_append_slash (p : String) :
    endsWithSlash (p ++ "/") = true := by
  have hdata : (p ++ "/").data = p.data ++ ['/'] := String.data_append p "/"
  simp [endsWithSlash, hdata, List.getLast?_concat]

/-- Unpacking one false optional-directory disjunct: when the directory is
present and non-empty, the candidate escapes it. -/
lemma insideDirOpt_eq_false {o : Option String} {base : String}
    (h : insideDirOpt o base = false) (d : String) (hd : o = some d)
    (hne : d ≠ "") : startsWithDotDot (relativeP d base) = true := by
  subst hd
  simp only [insideDirOpt] at h
  rcases Bool.and_eq_false_iff.mp h with hfalse | hok
  · exact absurd (by simpa using hfalse) hne
  · simpa using hok

/-- Unpacking `dropBase c base = false`: the candidate escapes the literal
`outDir`, and the literal `includesDir` / `layoutsDir` whenever those are
present and non-empty. -/
lemma of_dropBase_eq_false {c : Config} {base : String}
    (h : dropBase c base = false) :
    startsWithDotDot (relativeP c.outDir base) = true ∧
    (∀ d, c.includesDir = some d → d ≠ "" →
      startsWithDotDot (relativeP d base) = true) ∧
    (∀ d, c.layoutsDir = some d → d ≠ "" →
      startsWithDotDot (relativeP d base) = true) := by
  have hparts : ((!startsWithDotDot (relativeP c.outDir base)) = false ∧
      insideDirOpt c.includesDir base = false) ∧
      insideDirOpt c.layoutsDir base = false := by
    rw [← Bool.or_eq_false_iff, ← Bool.or_eq_false_iff]
    simpa [dropBase, Bool.or_assoc] using h
  obtain ⟨⟨h1, h2⟩, h3⟩ := hparts
  exact ⟨by simpa using h1,
    fun d hd hne => insideDirOpt_eq_false h2 d hd hne,
    fun d hd hne => insideDirOpt_eq_false h3 d hd hne⟩

/-- Every member of a `findSites` result arises from a surviving glob match:
a `base` in the pattern's expansion (after the ignore filter) with
`dropBase c base = false`, relativised against `baseDir`. -/
lemma mem_findSites {g : String → Option ExcludesSpec → List String}
    {ig : List String → List String} {c : Config} {pats : Patterns}
    {r : String} (hr : r ∈ findSites g ig c pats) :
    ∃ base, dropBase c base = false ∧ r = relativeP c.baseDir base := by
  have hlist : ∃ ps, findSites g ig c pats = findSitesOnList g ig c ps := by
    cases pats with
    | one p => exact ⟨[p], rfl⟩
    | many ps => exact ⟨ps, rfl⟩
  obtain ⟨ps, hps⟩ := hlist
  rw [hps] at hr
  unfold findSitesOnList at hr
  rw [List.mem_flatten] at hr
  obtain ⟨l, hl, hrl⟩ := hr
  rw [List.mem_map] at hl
  obtain ⟨p, _, rfl⟩ := hl
  unfold sitesForPattern at hrl
  rw [List.mem_map] at hrl
  obtain ⟨base, hbase, rfl⟩ := hrl
  rw [List.mem_filter] at hbase
  refine ⟨base, ?_, rfl⟩
  have := hbase.2
  simpa using this

/-! ### Claim C1 -/

/-- Claim C1 is false as stated: the source returns `undefined` both for a
bare-string match ("use default") and for no match, so the two outcomes are
not distinguishable.  Concretely, with the single bare `SiteSpec` "a", the
site "a" matches it (use-default) and the site "b" matches nothing
(no-match), yet `matchSiteConfig` returns the same value for both. -/
theorem c1_counterexample :
    mmLit "a" "a" = true ∧ mmLit "b" "a" = false ∧
    matchSiteConfig mmLit cfgBare "a" = matchSiteConfig mmLit cfgBare "b" := by
  decide

/-- Claim C1 (amended): `matchSiteConfig` yields the first matching pair's
override, and `none` (the `undefined` return) BOTH when no `SiteSpec` matches
and when the first matching `SiteSpec` is a bare string; the no-match outcome
is therefore not distinguishable from the use-default outcome. -/
theorem c1_theorem (mm : String → String → Bool) (c : Config) (s : String) :
    ((∀ q ∈ c.sites, mm s (specGlob q) = false) →
      matchSiteConfig mm c s = none) ∧
    (∀ pre p post, c.sites = pre ++ SiteSpec.plain p :: post →
      (∀ q ∈ pre, mm s (specGlob q) = false) → mm s p = true →
      matchSiteConfig mm c s = none) := by
  constructor
  · intro h
    exact matchSites_of_none_match mm s c.sites h
  · intro pre p post hsites hpre hmatch
    unfold matchSiteConfig
    rw [hsites]
    have hfirst := matchSites_first mm s pre post (SiteSpec.plain p) hpre
      (by simpa [specGlob] using hmatch)
    simpa [specResult] using hfirst

/-- Witness for C1: with the single bare `SiteSpec` "a", the unmatched site
"zzz" and the bare-matched site "a" both resolve to `none`. -/
theorem c1_witness :
    matchSiteConfig mmLit cfgBare "zzz" = none ∧
    matchSiteConfig mmLit cfgBare "a" = none :=
  ⟨(c1_theorem mmLit cfgBare "zzz").1 (by decide),
   (c1_theorem mmLit cfgBare "a").2 [] "a" [] rfl (by simp) (by decide)⟩

/-! ### Claim C2 -/

/-- Claim C2 is false as stated: with `ignoreGlobal` false and no
`globalConfigPath`, the constructor receives no configuration path at all
(the `undefined` global path), not the site's own `configPath`. -/
theorem c2_counterexample :
    oSiteOnly.ignoreGlobal = some false ∧
    oSiteOnly.globalConfigPath = none ∧
    oSiteOnly.configPath = some "sites/blog/eleventy.config.js" ∧
    (runEleventySetup oSiteOnly).configPath = none := by
  decide

/-- Claim C2 (amended): the configuration path handed to the generator
constructor is the site's own `configPath` exactly when `ignoreGlobal` is
truthy; whenever `ignoreGlobal` is falsy the constructor receives
`globalConfigPath` as-is — in particular, when `globalConfigPath` is absent
the constructor receives no path, not the site's own. -/
theorem c2_theorem (o : RunOptions) :
    (o.ignoreGlobal.getD false = true →
      (runEleventySetup o).configPath = o.configPath) ∧
    (o.ignoreGlobal.getD false = false →
      (runEleventySetup o).configPath = o.globalConfigPath) := by
  constructor <;> intro h <;> simp [runEleventySetup, h]

/-- Witness for C2: a site opting out of the global config keeps its own
path; a site not opting out gets the (here absent) global path. -/
theorem c2_witness :
    (runEleventySetup oIgnoresGlobal).configPath = oIgnoresGlobal.configPath ∧
    (runEleventySetup oSiteOnly).configPath = oSiteOnly.globalConfigPath :=
  ⟨(c2_theorem oIgnoresGlobal).1 (by decide),
   (c2_theorem oSiteOnly).2 (by decide)⟩

/-! ### Claim C5 -/

/-- Claim C5: `matchSiteConfig` returns the result associated with the first
matching `SiteSpec` in declaration order — its override for a pair, the
use-default value for a bare string — never a later one: whenever the sites
list splits as `pre ++ spec :: post` with nothing in `pre` matching and
`spec` matching, the result is `specResult spec`, whatever `post` contains
(covering in particular lists where every pattern matches, with
`pre = []`). -/
theorem c5_theorem (mm : String → String → Bool) (c : Config) (s : String)
    (pre post : List SiteSpec) (spec : SiteSpec)
    (hsites : c.sites = pre ++ spec :: post)
    (hpre : ∀ q ∈ pre, mm s (specGlob q) = false)
    (hmatch : mm s (specGlob spec) = true) :
    matchSiteConfig mm c s = specResult spec := by
  unfold matchSiteConfig
  rw [hsites]
  exact matchSites_first mm s pre post spec hpre hmatch

/-- Witness for C5: both specs of `cfgTwoMatches` match the site "docs", and
the resolver returns the first one's override. -/
theorem c5_witness :
    (∀ q ∈ cfgTwoMatches.sites, mmLit "docs" (specGlob q) = true) ∧
    matchSiteConfig mmLit cfgTwoMatches "docs" = some cfgDocs :=
  ⟨by decide,
   c5_theorem mmLit cfgTwoMatches "docs" [] [SiteSpec.plain "docs"]
     (SiteSpec.withConfig "docs" cfgDocs) rfl (by simp) (by decide)⟩

/-! ### Claim C9 -/

/-- Claim C9: `matchSiteConfig` is pure and deterministic in its two inputs —
in any sequence of calls, the result recorded at a call's position is exactly
the function of that call's config and site, independent of the calls made
before (`pre`) or after (`post`) it. -/
theorem c9_theorem (mm : String → String → Bool)
    (pre post : List (Config × String)) (c : Config) (s : String) :
    (callResults mm (pre ++ (c, s) :: post))[pre.length]? =
      some (matchSiteConfig mm c s) := by
  induction pre with
  | nil => simp [callResults]
  | cons x xs ih =>
    simp only [callResults, List.map_cons, List.cons_append, List.length_cons,
      List.getElem?_cons_succ]
    exact ih

/-! ### Claim C3 -/

/-- Claim C3 is false as stated: under `DEFAULT_CONFIG` (whose `includesDir`
is the literal `_includes/`, not sharing `baseDir`'s `sites/` prefix), the
glob match `sites/_includes/` survives the post-filter and `findSites`
returns `_includes` — a path that, by the claim's own notion of "inside"
(the relative path from the boundary directory to it does not start with a
parent-escape marker), is equal to `includesDir`. -/
theorem c3_counterexample :
    DEFAULT_CONFIG.includesDir = some "_includes/" ∧
    findSites gDemo id DEFAULT_CONFIG (Patterns.many ["*"]) =
      ["_includes", "blog"] ∧
    startsWithDotDot (relativeP "_includes/" "_includes") = false := by
  decide

/-- Claim C3 (amended): the post-filter compares the literal directory
strings against the baseDir-prefixed candidate — every path returned by
`findSites` arises from a candidate `base` whose relative path from the
literal `outDir` starts with the parent-escape marker, likewise from the
literal `includesDir` and `layoutsDir` whenever those are set and non-empty,
and the returned value is `base` relativised against `baseDir`.  The returned
baseDir-relative path itself may nevertheless coincide with or lie under one
of those directory strings. -/
theorem c3_theorem (g : String → Option ExcludesSpec → List String)
    (ig : List String → List String) (c : Config) (pats : Patterns)
    (r : String) (hr : r ∈ findSites g ig c pats) :
    ∃ base, startsWithDotDot (relativeP c.outDir base) = true ∧
      (∀ d, c.includesDir = some d → d ≠ "" →
        startsWithDotDot (relativeP d base) = true) ∧
      (∀ d, c.layoutsDir = some d → d ≠ "" →
        startsWithDotDot (relativeP d base) = true) ∧
      r = relativeP c.baseDir base := by
  obtain ⟨base, hdrop, hrel⟩ := mem_findSites hr
  obtain ⟨h1, h2, h3⟩ := of_dropBase_eq_false hdrop
  exact ⟨base, h1, h2, h3, hrel⟩

/-- Witness for C3: the returned site `blog` arises from the surviving
candidate `sites/blog/`. -/
theorem c3_witness :
    ∃ base, startsWithDotDot (relativeP DEFAULT_CONFIG.outDir base) = true ∧
      (∀ d, DEFAULT_CONFIG.includesDir = some d → d ≠ "" →
        startsWithDotDot (relativeP d base) = true) ∧
      (∀ d, DEFAULT_CONFIG.layoutsDir = some d → d ≠ "" →
        startsWithDotDot (relativeP d base) = true) ∧
      "blog" = relativeP DEFAULT_CONFIG.baseDir base :=
  c3_theorem gDemo id DEFAULT_CONFIG (Patterns.many ["*"]) "blog" (by decide)

/-! ### Claim C4 -/

/-- Claim C4: the post-filter tests the baseDir-prefixed glob match against
the literal `outDir`/`includesDir`/`layoutsDir` strings without resolving
them against `baseDir` — under `DEFAULT_CONFIG` (baseDir `sites/`,
includesDir `_includes/`), the relative path from `_includes/` to the match
`sites/_includes/` starts with the parent-escape marker, so the match is not
dropped and surfaces as `_includes` in the results. -/
theorem c4_theorem :
    startsWithDotDot (relativeP "_includes/" "sites/_includes/") = true ∧
    dropBase DEFAULT_CONFIG "sites/_includes/" = false ∧
    findSites gDemo id DEFAULT_CONFIG (Patterns.many ["*"]) =
      ["_includes", "blog"] := by
  decide

/-! ### Claim C6 -/

/-- Claim C6: a pattern without a trailing path separator has one appended
before being joined with `baseDir` and expanded, so for every config and
every external glob/ignore behaviour, the pattern `p` and the pattern
`p ++ "/"` produce identical `findSites` results. -/
theorem c6_theorem (g : String → Option ExcludesSpec → List String)
    (ig : List String → List String) (c : Config) (p : String)
    (h : endsWithSlash p = false) :
    findSites g ig c (Patterns.one p) =
      findSites g ig c (Patterns.one (p ++ "/")) := by
  simp [findSites, findSitesOnList, sitesForPattern, h,
    endsWithSlash_append_slash]

/-- Witness for C6: the default pattern `*` and its slash-terminated form
expand identically. -/
theorem c6_witness :
    findSites gDemo id DEFAULT_CONFIG (Patterns.one "*") =
      findSites gDemo id DEFAULT_CONFIG (Patterns.one ("*" ++ "/")) :=
  c6_theorem gDemo id DEFAULT_CONFIG "*" (by decide)

/-! ### Claim C7 -/

/-- Claim C7: `findSites` is total and raises nothing for inputs that match
no filesystem entry — when the glob expansion returns nothing for every
pattern (as for a non-existent `baseDir` or patterns matching nothing) and
the ignore filter preserves the empty list, the result is the empty
sequence. -/
theorem c7_theorem (g : String → Option ExcludesSpec → List String)
    (ig : List String → List String) (c : Config) (pats : Patterns)
    (hg : ∀ pat ex, g pat ex = []) (hig : ig [] = []) :
    findSites g ig c pats = [] := by
  have hpat : ∀ p, sitesForPattern g ig c p = [] := by
    intro p
    simp [sitesForPattern, hg, hig]
  have hlist : ∀ ps : List String, findSitesOnList g ig c ps = [] := by
    intro ps
    unfold findSitesOnList
    rw [List.flatten_eq_nil_iff]
    intro l hl
    rw [List.mem_map] at hl
    obtain ⟨p, _, rfl⟩ := hl
    exact hpat p
  cases pats with
  | one p => exact hlist [p]
  | many ps => exact hlist ps

/-- Witness for C7: an empty filesystem yields an empty result for the
default config and two patterns. -/
theorem c7_witness :
    findSites gEmpty id DEFAULT_CONFIG (Patterns.many ["*", "blog/*"]) = [] :=
  c7_theorem gEmpty id DEFAULT_CONFIG (Patterns.many ["*", "blog/*"])
    (fun _ _ => rfl) rfl

/-! ### Claim C8 -/

/-- Claim C8: after `init`, (i) when serve or watch is requested and the
watch setup fails, the serve step is not started and the force-logged
started-watching notice is emitted instead; (ii) when watch succeeds and
serve was requested, serve starts on the configured port; (iii) when neither
serve nor watch is requested, a one-shot write is performed. -/
theorem c8_theorem (o : RunOptions) (watchOk : Bool) :
    ((o.serve.getD false || o.watch.getD false) = true → watchOk = false →
      postInitAction o watchOk =
        RunAction.forceLog ("Started watching site " ++ o.sourceDir)) ∧
    (o.serve.getD false = true → watchOk = true →
      postInitAction o watchOk = RunAction.serve o.port) ∧
    ((o.serve.getD false || o.watch.getD false) = false →
      postInitAction o watchOk = RunAction.write) := by
  refine ⟨?_, ?_, ?_⟩
  · intro h hw
    subst hw
    simp [postInitAction, h]
  · intro hs hw
    subst hw
    simp [postInitAction, hs]
  · intro h
    simp [postInitAction, h]

/-- Witness for C8: with serve requested, a failed watch force-logs the
notice and a successful watch serves on port 8080; with neither flag, the
one-shot write runs. -/
theorem c8_witness :
    postInitAction oServe false =
      RunAction.forceLog ("Started watching site " ++ oServe.sourceDir) ∧
    postInitAction oServe true = RunAction.serve oServe.port ∧
    postInitAction oOneShot false = RunAction.write :=
  ⟨(c8_theorem oServe false).1 (by decide) rfl,
   (c8_theorem oServe true).2.1 (by decide) rfl,
   (c8_theorem oOneShot false).2.2 (by decide)⟩

/-! ### Claim C10 -/

/-- Claim C10: a property access on the logger proxy returns, for each of the
four method names `log`, `forceLog`, `warn` and `error`, a function that
delegates to the target's method of that name with the fixed tag
`[multisite] ` prepended to the message; any other property access returns
the wrapped logger's property untouched. -/
theorem c10_theorem {α β : Type} (targetProp : String → α)
    (targetCall : String → String → β) (prop : String) :
    (prop ∈ ["log", "forceLog", "warn", "error"] →
      loggerGet targetProp targetCall prop =
        ProxyValue.wrapped
          (fun msg => targetCall prop ("[multisite] " ++ msg))) ∧
    (prop ∉ ["log", "forceLog", "warn", "error"] →
      loggerGet targetProp targetCall prop =
        ProxyValue.forwarded (targetProp prop)) := by
  constructor <;> intro h <;> simp [loggerGet, h]

/-- A concrete plain-property table for the C10 witness. -/
def exProp : String → Nat := fun _ => 7

/-- A concrete method-call recorder for the C10 witness. -/
def exCall : String → String → String := fun p m => p ++ "|" ++ m

/-- Witness for C10: `warn` is intercepted and prefixed; an arbitrary other
property (`isVerbose`) is forwarded untouched. -/
theorem c10_witness :
    loggerGet exProp exCall "warn" =
      ProxyValue.wrapped (fun msg => exCall "warn" ("[multisite] " ++ msg)) ∧
    loggerGet exProp exCall "isVerbose" =
      ProxyValue.forwarded (exProp "isVerbose") :=
  ⟨(c10_theorem exProp exCall "warn").1 (by decide),
   (c10_theorem exProp exCall "isVerbose").2 (by decide)⟩

end Multisite
